import Mathlib

/-!
Shallow embedding of the Mock Trading API engine (`src/app.py`, class
`MockTradingBot`) and proofs about its specification claims.

Modelling conventions:
* Python floats are modelled as exact rationals (ℚ); Python ints as ℤ/ℕ.
* `random.random()`, `random.gauss(...)`, `random.randint(1000, 9999)` and
  `datetime.now()` are side-effect boundaries; each draw or timestamp is an
  explicit parameter threaded into the corresponding operation.
* The background thread is modelled by its body: one loop iteration is the
  `tick` function; the running flag is state.  Reachability is a fold (`run`)
  over a list of engine operations starting from the constructor state.
-/

set_option maxHeartbeats 1000000

namespace MockTradingAPI

/-- Python `int(q)` applied to a rational: truncation toward zero. -/
def pyInt (q : ℚ) : ℤ := if 0 ≤ q then ⌊q⌋ else -⌊-q⌋

/-- Python list slicing `l[-limit:]`, for an arbitrary integer `limit`:
for `limit > 0` the start index is `len + (-limit)` clamped below at `0`;
for `limit = 0` the slice is the whole list; for `limit < 0` the start index
is `-limit` clamped above at `len`. -/
def pyTail {α : Type} (l : List α) (limit : ℤ) : List α :=
  if 0 < limit then l.drop ((l.length : ℤ) - limit).toNat
  else l.drop (-limit).toNat

/-- The `current_position` sub-dictionary of the bot state snapshot. -/
structure CurrentPosition where
  qty : ℤ
  avg_entry_price : ℚ
  current_price : ℚ
  market_value : ℚ
  unrealized_pl : ℚ
deriving DecidableEq

/-- The `bot_state` dictionary. -/
structure BotStateSnapshot where
  status : String
  current_position : Option CurrentPosition
  portfolio_value : ℚ
  cash : ℚ
  total_pl : ℚ
  total_pl_pct : ℚ
  last_update : Option ℕ
  last_action : String
  market_open : Bool
deriving DecidableEq

/-- A trade record appended to `trade_history`.  `profit` is present only on
SELL records. -/
structure Trade where
  timestamp : ℕ
  action : String
  shares : ℤ
  price : ℚ
  order_id : String
  profit : Option ℚ
deriving DecidableEq

/-- A sample appended to `performance_history`. -/
structure PerfSample where
  timestamp : ℕ
  portfolio_value : ℚ
  cash : ℚ
  position_value : ℚ
deriving DecidableEq

/-- The whole engine object: instance attributes of `MockTradingBot`.
The configuration dictionary is modelled as an association list; Python's
`not self.config` is emptiness of that list. -/
structure MockTradingBot where
  is_running : Bool
  initial_value : ℚ
  cash : ℚ
  shares_held : ℤ
  current_price : ℚ
  bot_state : BotStateSnapshot
  trade_history : List Trade
  performance_history : List PerfSample
  config : List (String × String)
deriving DecidableEq

/-- The `{'success': ..., 'message'/'error': ...}` dictionaries returned by
the lifecycle operations. -/
structure ApiResult where
  success : Bool
  message : String
deriving DecidableEq

/-- `MockTradingBot.__init__`. -/
def mkBot : MockTradingBot :=
  { is_running := false
    initial_value := 10000
    cash := 10000
    shares_held := 0
    current_price := 175
    bot_state :=
      { status := "stopped"
        current_position := none
        portfolio_value := 10000
        cash := 10000
        total_pl := 0
        total_pl_pct := 0
        last_update := none
        last_action := "HOLD"
        market_open := true }
    trade_history := []
    performance_history := []
    config := [] }

/-- `MockTradingBot.initialize`: stores the configuration and sets
`status = 'initialized'`. -/
def init_bot (b : MockTradingBot) (config : List (String × String)) :
    MockTradingBot × ApiResult :=
  ({ b with
      config := config
      bot_state := { b.bot_state with status := "initialized" } },
   { success := true, message := "Mock bot initialized" })

/-- `MockTradingBot.simulate_price_movement`: multiplies the price by
`1 + change_percent`, where `change_percent` is the gaussian draw. -/
def simulate_price_movement (b : MockTradingBot) (change_percent : ℚ) :
    MockTradingBot :=
  { b with current_price := b.current_price * (1 + change_percent) }

/-- `MockTradingBot.make_trading_decision`: returns `1` (index of BUY) with
threshold `0.2` on the uniform draw when flat, `2` (index of SELL) with
threshold `0.15` otherwise, else `0` (index of HOLD). -/
def make_trading_decision (shares_held : ℤ) (draw : ℚ) : ℕ :=
  if shares_held = 0 then
    if draw < 2/10 then 1 else 0
  else
    if draw < 15/100 then 2 else 0

/-- The order id string `f'mock-{random.randint(1000, 9999)}'` built from the
integer draw `n`. -/
def mkOrderId (n : ℕ) : String := "mock-" ++ toString n

/-- `MockTradingBot.execute_mock_trade`.  `action` is the integer returned by
the decision function; `timestamp` and `oid` stand for `datetime.now()` and
the `randint` draw.  Faithful points: the BUY branch does nothing at all
(including `last_action`) when `shares_to_buy = 0`; the SELL profit is
computed from the snapshot's stored `portfolio_value` and the pre-sale cash,
before cash is credited; the SELL record's share count is read before
`shares_held` is zeroed. -/
def execute_mock_trade (b : MockTradingBot) (action : ℕ) (timestamp oid : ℕ) :
    MockTradingBot :=
  if action = 1 ∧ b.shares_held = 0 then
    let shares_to_buy : ℤ := pyInt (b.cash * (95/100) / b.current_price)
    if 0 < shares_to_buy then
      let cost : ℚ := (shares_to_buy : ℚ) * b.current_price
      { b with
        cash := b.cash - cost
        shares_held := shares_to_buy
        trade_history := b.trade_history ++
          [{ timestamp := timestamp, action := "BUY", shares := shares_to_buy,
             price := b.current_price, order_id := mkOrderId oid,
             profit := none }]
        bot_state := { b.bot_state with last_action := "BUY" } }
    else
      b
  else if action = 2 ∧ 0 < b.shares_held then
    let revenue : ℚ := (b.shares_held : ℚ) * b.current_price
    let profit : ℚ := revenue -
      (b.shares_held : ℚ) * (b.bot_state.portfolio_value - b.cash) /
        ((max b.shares_held 1 : ℤ) : ℚ)
    { b with
      cash := b.cash + revenue
      shares_held := 0
      trade_history := b.trade_history ++
        [{ timestamp := timestamp, action := "SELL", shares := b.shares_held,
           price := b.current_price, order_id := mkOrderId oid,
           profit := some profit }]
      bot_state := { b.bot_state with last_action := "SELL" } }
  else
    { b with bot_state := { b.bot_state with last_action := "HOLD" } }

/-- The retention step at the end of `update_state`: keep only the last 1000
performance samples. -/
def perfRetain (l : List PerfSample) : List PerfSample :=
  if 1000 < l.length then l.drop (l.length - 1000) else l

/-- `MockTradingBot.update_state`: recomputes the snapshot from
cash/shares/price and appends a performance sample, then applies retention. -/
def update_state (b : MockTradingBot) (t : ℕ) : MockTradingBot :=
  let position_value : ℚ := (b.shares_held : ℚ) * b.current_price
  let portfolio_value : ℚ := b.cash + position_value
  let total_pl : ℚ := portfolio_value - b.initial_value
  let total_pl_pct : ℚ := (total_pl / b.initial_value) * 100
  { b with
    bot_state :=
      { b.bot_state with
        portfolio_value := portfolio_value
        cash := b.cash
        current_position :=
          if 0 < b.shares_held then
            some { qty := b.shares_held
                   avg_entry_price := b.current_price
                   current_price := b.current_price
                   market_value := position_value
                   unrealized_pl :=
                     position_value - (b.shares_held : ℚ) * b.current_price }
          else none
        total_pl := total_pl
        total_pl_pct := total_pl_pct
        last_update := some t
        market_open := true }
    performance_history := perfRetain (b.performance_history ++
      [{ timestamp := t, portfolio_value := portfolio_value, cash := b.cash,
         position_value := position_value }]) }

/-- `MockTradingBot.start`: duplicate-start guard, then the `not self.config`
emptiness guard, then the flag flip.  Thread spawning is not part of the
state model beyond the flag. -/
def start (b : MockTradingBot) : MockTradingBot × ApiResult :=
  if b.is_running then
    (b, { success := false, message := "Bot already running" })
  else if b.config = [] then
    (b, { success := false, message := "Bot not initialized" })
  else
    ({ b with is_running := true },
     { success := true, message := "Mock bot started" })

/-- `MockTradingBot.stop`. -/
def stop (b : MockTradingBot) : MockTradingBot × ApiResult :=
  if b.is_running = false then
    (b, { success := false, message := "Bot not running" })
  else
    ({ b with
        is_running := false
        bot_state := { b.bot_state with status := "stopped" } },
     { success := true, message := "Mock bot stopped" })

/-- `MockTradingBot.get_state`. -/
def get_state (b : MockTradingBot) : BotStateSnapshot := b.bot_state

/-- `MockTradingBot.get_trades`: `self.trade_history[-limit:]`. -/
def get_trades (b : MockTradingBot) (limit : ℤ) : List Trade :=
  pyTail b.trade_history limit

/-- `get_trades` at its default argument `limit = 50`. -/
def get_trades_default (b : MockTradingBot) : List Trade := get_trades b 50

/-- `MockTradingBot.get_performance`: `self.performance_history[-limit:]`. -/
def get_performance (b : MockTradingBot) (limit : ℤ) : List PerfSample :=
  pyTail b.performance_history limit

/-- `get_performance` at its default argument `limit = 200`. -/
def get_performance_default (b : MockTradingBot) : List PerfSample :=
  get_performance b 200

/-- The random draws and timestamp consumed by one iteration of
`trading_loop`. -/
structure TickInput where
  change_percent : ℚ
  draw : ℚ
  oid : ℕ
  t : ℕ
deriving DecidableEq

/-- One iteration of `MockTradingBot.trading_loop`: set `status = 'active'`,
move the price, decide, execute, refresh the snapshot and history. -/
def tick (b : MockTradingBot) (i : TickInput) : MockTradingBot :=
  let b0 := { b with bot_state := { b.bot_state with status := "active" } }
  let b1 := simulate_price_movement b0 i.change_percent
  let a := make_trading_decision b1.shares_held i.draw
  let b2 := execute_mock_trade b1 a i.t i.oid
  update_state b2 i.t

/-- An engine operation: one of the state-mutating entry points, or one tick
of the background loop. -/
inductive Op where
  | op_init (config : List (String × String)) : Op
  | op_start : Op
  | op_stop : Op
  | op_tick (i : TickInput) : Op
deriving DecidableEq

/-- Apply one engine operation to the state (discarding the API result). -/
def applyOp (b : MockTradingBot) : Op → MockTradingBot
  | Op.op_init c => (init_bot b c).1
  | Op.op_start => (start b).1
  | Op.op_stop => (stop b).1
  | Op.op_tick i => tick b i

/-- Run a sequence of engine operations from a state.  A state is reachable
iff it is `run mkBot ops` for some `ops`. -/
def run (b : MockTradingBot) : List Op → MockTradingBot
  | [] => b
  | op :: ops => run (applyOp b op) ops

/-- The performance sample built by `update_state` from the current state. -/
def perfSampleOf (b : MockTradingBot) (t : ℕ) : PerfSample :=
  { timestamp := t
    portfolio_value := b.cash + (b.shares_held : ℚ) * b.current_price
    cash := b.cash
    position_value := (b.shares_held : ℚ) * b.current_price }

/-! ### Preservation lemmas -/

theorem update_state_cash (b : MockTradingBot) (t : ℕ) :
    (update_state b t).cash = b.cash := rfl

theorem update_state_shares_held (b : MockTradingBot) (t : ℕ) :
    (update_state b t).shares_held = b.shares_held := rfl

theorem update_state_current_price (b : MockTradingBot) (t : ℕ) :
    (update_state b t).current_price = b.current_price := rfl

theorem update_state_initial_value (b : MockTradingBot) (t : ℕ) :
    (update_state b t).initial_value = b.initial_value := rfl

theorem update_state_trade_history (b : MockTradingBot) (t : ℕ) :
    (update_state b t).trade_history = b.trade_history := rfl

theorem execute_initial_value (b : MockTradingBot) (a t o : ℕ) :
    (execute_mock_trade b a t o).initial_value = b.initial_value := by
  unfold execute_mock_trade
  split
  · dsimp only
    split <;> rfl
  · split <;> rfl

theorem execute_current_price (b : MockTradingBot) (a t o : ℕ) :
    (execute_mock_trade b a t o).current_price = b.current_price := by
  unfold execute_mock_trade
  split
  · dsimp only
    split <;> rfl
  · split <;> rfl

theorem applyOp_initial_value (b : MockTradingBot) (op : Op) :
    (applyOp b op).initial_value = b.initial_value := by
  cases op with
  | op_init c => rfl
  | op_start =>
    show (start b).1.initial_value = b.initial_value
    unfold start
    split
    · rfl
    · split <;> rfl
  | op_stop =>
    show (stop b).1.initial_value = b.initial_value
    unfold stop
    split <;> rfl
  | op_tick i =>
    show (update_state _ _).initial_value = b.initial_value
    rw [update_state_initial_value, execute_initial_value]
    rfl

theorem run_initial_value (ops : List Op) (b : MockTradingBot) :
    (run b ops).initial_value = b.initial_value := by
  induction ops generalizing b with
  | nil => rfl
  | cons op ops ih =>
    show (run (applyOp b op) ops).initial_value = b.initial_value
    rw [ih, applyOp_initial_value]

/-- What `update_state` writes into the snapshot, relative to the state's own
fields: the accounting identities of the State Aggregator. -/
theorem update_state_spec (b : MockTradingBot) (t : ℕ) :
    (update_state b t).bot_state.portfolio_value =
      b.cash + (b.shares_held : ℚ) * b.current_price ∧
    (update_state b t).bot_state.total_pl =
      (update_state b t).bot_state.portfolio_value - b.initial_value ∧
    (update_state b t).bot_state.total_pl_pct =
      100 * (update_state b t).bot_state.total_pl / b.initial_value := by
  refine ⟨rfl, rfl, ?_⟩
  show (((b.cash + (b.shares_held : ℚ) * b.current_price) - b.initial_value) /
      b.initial_value) * 100 =
    100 * ((b.cash + (b.shares_held : ℚ) * b.current_price) - b.initial_value) /
      b.initial_value
  ring

/-- C1: for every reachable state, the snapshot produced by a state refresh
satisfies `portfolio_value = cash + shares_held * current_price`,
`total_pl = portfolio_value - initial_value` with `initial_value = 10000`,
and `total_pl_pct = 100 * total_pl / initial_value`. -/
theorem c1_snapshot_accounting (ops : List Op) (t : ℕ) :
    (update_state (run mkBot ops) t).bot_state.portfolio_value =
      (update_state (run mkBot ops) t).cash +
        ((update_state (run mkBot ops) t).shares_held : ℚ) *
          (update_state (run mkBot ops) t).current_price ∧
    (update_state (run mkBot ops) t).bot_state.total_pl =
      (update_state (run mkBot ops) t).bot_state.portfolio_value - 10000 ∧
    (update_state (run mkBot ops) t).bot_state.total_pl_pct =
      100 * (update_state (run mkBot ops) t).bot_state.total_pl / 10000 := by
  obtain ⟨h1, h2, h3⟩ := update_state_spec (run mkBot ops) t
  have h0 : (run mkBot ops).initial_value = 10000 :=
    (run_initial_value ops mkBot).trans rfl
  rw [h0] at h2 h3
  refine ⟨?_, h2, h3⟩
  rw [update_state_cash, update_state_shares_held, update_state_current_price]
  exact h1

/-- C9: `get_trades` and `get_performance` at `limit = 0` return the entire
history buffer (Python `l[-0:]` is `l[0:]`), not zero records. -/
theorem c9_limit_zero_whole_buffer (b : MockTradingBot) :
    get_trades b 0 = b.trade_history ∧
    get_performance b 0 = b.performance_history := by
  constructor <;> simp [get_trades, get_performance, pyTail]

/-- C10: a SELL executed with `shares_held > 0` records
`profit = revenue - (snapshot portfolio_value - pre-sale cash)` with
`revenue = shares_held * current_price`: the cost basis is the position value
recorded at the last state refresh, not the cash paid at entry. -/
theorem c10_sell_profit_basis (b : MockTradingBot) (t o : ℕ)
    (h : 0 < b.shares_held) :
    (execute_mock_trade b 2 t o).trade_history =
      b.trade_history ++
        [{ timestamp := t, action := "SELL", shares := b.shares_held,
           price := b.current_price, order_id := mkOrderId o,
           profit := some ((b.shares_held : ℚ) * b.current_price -
             (b.bot_state.portfolio_value - b.cash)) }] := by
  have hne : ¬ ((2 : ℕ) = 1 ∧ b.shares_held = 0) := by
    rintro ⟨h2, -⟩
    exact absurd h2 (by decide)
  have hs0 : (b.shares_held : ℚ) ≠ 0 := by
    exact_mod_cast h.ne.symm
  have hmax : max b.shares_held 1 = b.shares_held := max_eq_left (by omega)
  unfold execute_mock_trade
  rw [if_neg hne, if_pos ⟨rfl, h⟩]
  show b.trade_history ++ _ = b.trade_history ++ _
  rw [hmax, mul_div_cancel_left₀ _ hs0]

/-- Witness for `c10_sell_profit_basis` at a state holding one share. -/
theorem c10_sell_profit_basis_witness :
    (0 < ({ mkBot with shares_held := 1 } : MockTradingBot).shares_held) ∧
    (execute_mock_trade { mkBot with shares_held := 1 } 2 0 1234).trade_history =
      ({ mkBot with shares_held := 1 } : MockTradingBot).trade_history ++
        [{ timestamp := 0, action := "SELL",
           shares := ({ mkBot with shares_held := 1 } : MockTradingBot).shares_held,
           price := ({ mkBot with shares_held := 1 } : MockTradingBot).current_price,
           order_id := mkOrderId 1234,
           profit := some
             ((({ mkBot with shares_held := 1 } : MockTradingBot).shares_held : ℚ) *
                 ({ mkBot with shares_held := 1 } : MockTradingBot).current_price -
               (({ mkBot with shares_held := 1 } : MockTradingBot).bot_state.portfolio_value -
                 ({ mkBot with shares_held := 1 } : MockTradingBot).cash)) }] :=
  ⟨by decide, c10_sell_profit_basis { mkBot with shares_held := 1 } 0 1234 (by decide)⟩

/-- C3: a BUY executed when flat computes
`shares_to_buy = floor(cash * 0.95 / current_price)` (Python `int` truncation
coincides with the floor here because the quotient is non-negative); when
`shares_to_buy ≤ 0` the position and the trade history are untouched;
otherwise cash decreases by `shares_to_buy * current_price`, the holding
becomes `shares_to_buy`, a BUY record with those shares and the current price
is appended, and `last_action` becomes BUY. -/
theorem c3_buy_semantics (b : MockTradingBot) (t o : ℕ)
    (h0 : b.shares_held = 0) (hc : 0 ≤ b.cash) (hp : 0 < b.current_price) :
    pyInt (b.cash * (95/100) / b.current_price) =
      ⌊b.cash * (95/100) / b.current_price⌋ ∧
    (⌊b.cash * (95/100) / b.current_price⌋ ≤ 0 →
      (execute_mock_trade b 1 t o).cash = b.cash ∧
      (execute_mock_trade b 1 t o).shares_held = b.shares_held ∧
      (execute_mock_trade b 1 t o).trade_history = b.trade_history) ∧
    (0 < ⌊b.cash * (95/100) / b.current_price⌋ →
      (execute_mock_trade b 1 t o).cash =
        b.cash - (⌊b.cash * (95/100) / b.current_price⌋ : ℚ) * b.current_price ∧
      (execute_mock_trade b 1 t o).shares_held =
        ⌊b.cash * (95/100) / b.current_price⌋ ∧
      (execute_mock_trade b 1 t o).trade_history = b.trade_history ++
        [{ timestamp := t, action := "BUY",
           shares := ⌊b.cash * (95/100) / b.current_price⌋,
           price := b.current_price, order_id := mkOrderId o,
           profit := none }] ∧
      (execute_mock_trade b 1 t o).bot_state.last_action = "BUY") := by
  have hq : 0 ≤ b.cash * (95/100) / b.current_price :=
    div_nonneg (mul_nonneg hc (by norm_num)) hp.le
  have hpy : pyInt (b.cash * (95/100) / b.current_price) =
      ⌊b.cash * (95/100) / b.current_price⌋ := if_pos hq
  refine ⟨hpy, ?_, ?_⟩ <;> intro hfl
  · have hbr : execute_mock_trade b 1 t o = b := by
      unfold execute_mock_trade
      rw [if_pos ⟨rfl, h0⟩]
      dsimp only
      rw [hpy, if_neg (not_lt.mpr hfl)]
    rw [hbr]
    exact ⟨rfl, rfl, rfl⟩
  · have hbr : execute_mock_trade b 1 t o =
        { b with
          cash := b.cash -
            (⌊b.cash * (95/100) / b.current_price⌋ : ℚ) * b.current_price
          shares_held := ⌊b.cash * (95/100) / b.current_price⌋
          trade_history := b.trade_history ++
            [{ timestamp := t, action := "BUY",
               shares := ⌊b.cash * (95/100) / b.current_price⌋,
               price := b.current_price, order_id := mkOrderId o,
               profit := none }]
          bot_state := { b.bot_state with last_action := "BUY" } } := by
      unfold execute_mock_trade
      rw [if_pos ⟨rfl, h0⟩]
      dsimp only
      rw [hpy, if_pos hfl]
    rw [hbr]
    exact ⟨rfl, rfl, rfl, rfl⟩

/-- Witness for `c3_buy_semantics` at the constructor state. -/
theorem c3_buy_semantics_witness :
    (mkBot.shares_held = 0 ∧ 0 ≤ mkBot.cash ∧ 0 < mkBot.current_price) ∧
    (pyInt (mkBot.cash * (95/100) / mkBot.current_price) =
      ⌊mkBot.cash * (95/100) / mkBot.current_price⌋ ∧
    (⌊mkBot.cash * (95/100) / mkBot.current_price⌋ ≤ 0 →
      (execute_mock_trade mkBot 1 0 1234).cash = mkBot.cash ∧
      (execute_mock_trade mkBot 1 0 1234).shares_held = mkBot.shares_held ∧
      (execute_mock_trade mkBot 1 0 1234).trade_history = mkBot.trade_history) ∧
    (0 < ⌊mkBot.cash * (95/100) / mkBot.current_price⌋ →
      (execute_mock_trade mkBot 1 0 1234).cash =
        mkBot.cash -
          (⌊mkBot.cash * (95/100) / mkBot.current_price⌋ : ℚ) *
            mkBot.current_price ∧
      (execute_mock_trade mkBot 1 0 1234).shares_held =
        ⌊mkBot.cash * (95/100) / mkBot.current_price⌋ ∧
      (execute_mock_trade mkBot 1 0 1234).trade_history =
        mkBot.trade_history ++
          [{ timestamp := 0, action := "BUY",
             shares := ⌊mkBot.cash * (95/100) / mkBot.current_price⌋,
             price := mkBot.current_price, order_id := mkOrderId 1234,
             profit := none }] ∧
      (execute_mock_trade mkBot 1 0 1234).bot_state.last_action = "BUY")) :=
  ⟨⟨rfl, by decide, by decide⟩,
   c3_buy_semantics mkBot 0 1234 rfl (by decide) (by decide)⟩

/-- C8: the decision policy produces only the action indices 0 (HOLD),
1 (BUY), 2 (SELL); BUY is produced exactly when the holding is zero and the
uniform draw falls below the threshold `0.2` (an event of probability `0.2`
for a uniform draw on `[0,1)`), SELL exactly when the holding is positive and
the draw falls below `0.15`; otherwise HOLD. -/
theorem c8_decision_policy (shares : ℤ) (draw : ℚ) (h : 0 ≤ shares) :
    (make_trading_decision shares draw = 0 ∨
     make_trading_decision shares draw = 1 ∨
     make_trading_decision shares draw = 2) ∧
    (make_trading_decision shares draw = 1 → shares = 0 ∧ draw < 2/10) ∧
    (make_trading_decision shares draw = 2 → 0 < shares ∧ draw < 15/100) ∧
    (shares = 0 →
      ((make_trading_decision shares draw = 1 ↔ draw < 2/10) ∧
       (¬ draw < 2/10 → make_trading_decision shares draw = 0))) ∧
    (0 < shares →
      ((make_trading_decision shares draw = 2 ↔ draw < 15/100) ∧
       (¬ draw < 15/100 → make_trading_decision shares draw = 0))) := by
  unfold make_trading_decision
  by_cases hs : shares = 0 <;> by_cases hd1 : draw < 2/10 <;>
    by_cases hd2 : draw < 15/100 <;>
    simp [hs, hd1, hd2] <;> omega

/-- Witness for `c8_decision_policy` with a flat position and a draw below
the BUY threshold. -/
theorem c8_decision_policy_witness :
    ((0 : ℤ) ≤ 0) ∧
    ((make_trading_decision 0 (1/10) = 0 ∨
      make_trading_decision 0 (1/10) = 1 ∨
      make_trading_decision 0 (1/10) = 2) ∧
     (make_trading_decision 0 (1/10) = 1 → (0 : ℤ) = 0 ∧ (1/10 : ℚ) < 2/10) ∧
     (make_trading_decision 0 (1/10) = 2 → (0 : ℤ) < 0 ∧ (1/10 : ℚ) < 15/100) ∧
     ((0 : ℤ) = 0 →
       ((make_trading_decision 0 (1/10) = 1 ↔ (1/10 : ℚ) < 2/10) ∧
        (¬ (1/10 : ℚ) < 2/10 → make_trading_decision 0 (1/10) = 0))) ∧
     ((0 : ℤ) < 0 →
       ((make_trading_decision 0 (1/10) = 2 ↔ (1/10 : ℚ) < 15/100) ∧
        (¬ (1/10 : ℚ) < 15/100 → make_trading_decision 0 (1/10) = 0)))) :=
  ⟨le_refl 0, c8_decision_policy 0 (1/10) (le_refl 0)⟩

/-- C2 counterexample: after `initialize` with an empty configuration mapping
and with no loop active, `start` still fails with the NotConfigured error
(`'Bot not initialized'`), because the code tests truthiness of the stored
mapping, not whether `initialize` was ever called. -/
theorem c2_counterexample :
    (init_bot mkBot []).1.is_running = false ∧
    (start (init_bot mkBot []).1).2 =
      { success := false, message := "Bot not initialized" } := by
  constructor <;> decide

/-- C2 (amended): `start` fails with AlreadyRunning when the running flag is
set; otherwise it fails with NotConfigured exactly when the stored
configuration mapping is empty — which is the case both when `initialize` was
never called and when it was last called with an empty mapping; for every
nonempty configuration, a `start` after `init_bot` with no loop active
succeeds and sets the running flag. -/
theorem c2_start_amended (b : MockTradingBot) :
    (b.is_running = true →
      start b = (b, { success := false, message := "Bot already running" })) ∧
    (b.is_running = false → b.config = [] →
      start b = (b, { success := false, message := "Bot not initialized" })) ∧
    (b.is_running = false → b.config ≠ [] →
      (start b).1 = { b with is_running := true } ∧
      (start b).2 = { success := true, message := "Mock bot started" } ∧
      (start b).1.is_running = true) ∧
    (∀ c, b.is_running = false → c ≠ [] →
      (start (init_bot b c).1).2.success = true ∧
      (start (init_bot b c).1).1.is_running = true) := by
  refine ⟨?_, ?_, ?_, ?_⟩
  · intro hr
    unfold start
    rw [if_pos hr]
  · intro hr hc
    unfold start
    rw [if_neg (by simp [hr]), if_pos hc]
  · intro hr hc
    unfold start
    rw [if_neg (by simp [hr]), if_neg hc]
    exact ⟨rfl, rfl, rfl⟩
  · intro c hr hc
    unfold start init_bot
    rw [if_neg (by simp [hr]), if_neg hc]
    exact ⟨rfl, rfl⟩

/-- Witness for `c2_start_amended` at the constructor state with a singleton
configuration. -/
theorem c2_start_amended_witness :
    (mkBot.is_running = false ∧ ([("ticker", "AAPL")] : List (String × String)) ≠ []) ∧
    ((start (init_bot mkBot [("ticker", "AAPL")]).1).2.success = true ∧
     (start (init_bot mkBot [("ticker", "AAPL")]).1).1.is_running = true) :=
  ⟨⟨rfl, by simp⟩,
   (c2_start_amended mkBot).2.2.2 [("ticker", "AAPL")] rfl (by simp)⟩

/-- Placeholder trade used as the default of `List.getD` in concrete
statements. -/
def defaultTrade : Trade :=
  { timestamp := 0, action := "", shares := 0, price := 0, order_id := "",
    profit := none }

/-- C5 counterexample: a concrete two-tick run (a BUY then a SELL whose
`randint` draws are both 1234) appends two distinct trade records that carry
the same `order_id`, refuting engine-lifetime uniqueness. -/
theorem c5_counterexample :
    (run mkBot [Op.op_tick ⟨0, 0, 1234, 0⟩,
      Op.op_tick ⟨0, 0, 1234, 1⟩]).trade_history.length = 2 ∧
    ((run mkBot [Op.op_tick ⟨0, 0, 1234, 0⟩,
        Op.op_tick ⟨0, 0, 1234, 1⟩]).trade_history.getD 0 defaultTrade ≠
      (run mkBot [Op.op_tick ⟨0, 0, 1234, 0⟩,
        Op.op_tick ⟨0, 0, 1234, 1⟩]).trade_history.getD 1 defaultTrade) ∧
    ((run mkBot [Op.op_tick ⟨0, 0, 1234, 0⟩,
        Op.op_tick ⟨0, 0, 1234, 1⟩]).trade_history.getD 0 defaultTrade).order_id =
      ((run mkBot [Op.op_tick ⟨0, 0, 1234, 0⟩,
        Op.op_tick ⟨0, 0, 1234, 1⟩]).trade_history.getD 1 defaultTrade).order_id := by
  refine ⟨by with_unfolding_all decide, by with_unfolding_all decide,
    by with_unfolding_all decide⟩

/-- C5 (amended): `order_id`s are not unique across the life of the engine;
each appended record's `order_id` is the string `mock-N` built from that
trade's `randint` draw, so two records collide exactly when their draws
collide.  Every record present after an execution either was already in the
history or carries the order id built from this execution's draw. -/
theorem c5_order_id_amended (b : MockTradingBot) (a t o : ℕ) (tr : Trade)
    (htr : tr ∈ (execute_mock_trade b a t o).trade_history) :
    tr ∈ b.trade_history ∨ tr.order_id = mkOrderId o := by
  unfold execute_mock_trade at htr
  split at htr
  · dsimp only at htr
    split at htr
    · rw [List.mem_append, List.mem_singleton] at htr
      rcases htr with htr | rfl
      · exact Or.inl htr
      · exact Or.inr rfl
    · exact Or.inl htr
  · split at htr
    · rw [List.mem_append, List.mem_singleton] at htr
      rcases htr with htr | rfl
      · exact Or.inl htr
      · exact Or.inr rfl
    · exact Or.inl htr

/-- Witness for `c5_order_id_amended`: the BUY record appended by a first
trade from the constructor state. -/
theorem c5_order_id_amended_witness :
    (({ timestamp := 0, action := "BUY", shares := 54, price := 175,
        order_id := mkOrderId 1234, profit := none } : Trade) ∈
      (execute_mock_trade mkBot 1 0 1234).trade_history) ∧
    (({ timestamp := 0, action := "BUY", shares := 54, price := 175,
        order_id := mkOrderId 1234, profit := none } : Trade) ∈
        mkBot.trade_history ∨
      ({ timestamp := 0, action := "BUY", shares := 54, price := 175,
         order_id := mkOrderId 1234, profit := none } : Trade).order_id =
        mkOrderId 1234) :=
  ⟨by with_unfolding_all decide,
   c5_order_id_amended mkBot 1 0 1234 _ (by with_unfolding_all decide)⟩

/-- A one-record trade history used to refute the `limit = 0` case of C7. -/
def botOneTrade : MockTradingBot :=
  { mkBot with
    trade_history :=
      [{ timestamp := 0, action := "BUY", shares := 1, price := 100,
         order_id := mkOrderId 1000, profit := none }] }

/-- C7 counterexample: with one record in the buffer, `get_trades` at
`limit = 0` returns that one record — more than `limit` records — because
Python `l[-0:]` is the whole list; so the claim does not hold for every
limit value. -/
theorem c7_counterexample :
    get_trades botOneTrade 0 = botOneTrade.trade_history ∧
    (get_trades botOneTrade 0).length = 1 := by
  refine ⟨by with_unfolding_all decide, by with_unfolding_all decide⟩

/-- C7 (amended): for every limit `≥ 1` and every buffer content,
`get_trades` and `get_performance` return the most recent `limit` records in
insertion order — the suffix of length `min limit len` — and the whole buffer
when it holds fewer than `limit`; the defaults are 50 for trades and 200 for
performance.  (For `limit = 0` the whole buffer is returned, and for negative
limits Python slice semantics apply instead.) -/
theorem c7_tail_amended (b : MockTradingBot) (limit : ℤ) (hl : 1 ≤ limit) :
    get_trades b limit =
      b.trade_history.drop (b.trade_history.length - limit.toNat) ∧
    (get_trades b limit).length = min limit.toNat b.trade_history.length ∧
    ((b.trade_history.length : ℤ) ≤ limit →
      get_trades b limit = b.trade_history) ∧
    get_performance b limit =
      b.performance_history.drop (b.performance_history.length - limit.toNat) ∧
    (get_performance b limit).length =
      min limit.toNat b.performance_history.length ∧
    ((b.performance_history.length : ℤ) ≤ limit →
      get_performance b limit = b.performance_history) ∧
    get_trades_default b = get_trades b 50 ∧
    get_performance_default b = get_performance b 200 := by
  have hpos : (0 : ℤ) < limit := by omega
  have htail : ∀ {α : Type} (l : List α),
      pyTail l limit = l.drop (l.length - limit.toNat) := by
    intro α l
    unfold pyTail
    rw [if_pos hpos]
    congr 1
    omega
  have hlen : ∀ {α : Type} (l : List α),
      (l.drop (l.length - limit.toNat)).length = min limit.toNat l.length := by
    intro α l
    rw [List.length_drop]
    omega
  have hall : ∀ {α : Type} (l : List α), (l.length : ℤ) ≤ limit →
      l.drop (l.length - limit.toNat) = l := by
    intro α l hle
    have : l.length - limit.toNat = 0 := by omega
    rw [this, List.drop_zero]
  refine ⟨htail _, ?_, ?_, htail _, ?_, ?_, rfl, rfl⟩
  · rw [show get_trades b limit = pyTail b.trade_history limit from rfl,
      htail _]
    exact hlen _
  · intro hle
    rw [show get_trades b limit = pyTail b.trade_history limit from rfl,
      htail _]
    exact hall _ hle
  · rw [show get_performance b limit = pyTail b.performance_history limit from
      rfl, htail _]
    exact hlen _
  · intro hle
    rw [show get_performance b limit = pyTail b.performance_history limit from
      rfl, htail _]
    exact hall _ hle

/-- Witness for `c7_tail_amended` at `limit = 1` on a one-record buffer. -/
theorem c7_tail_amended_witness :
    ((1 : ℤ) ≤ 1) ∧
    (get_trades botOneTrade 1 =
      botOneTrade.trade_history.drop
        (botOneTrade.trade_history.length - (1 : ℤ).toNat) ∧
    (get_trades botOneTrade 1).length =
      min (1 : ℤ).toNat botOneTrade.trade_history.length ∧
    ((botOneTrade.trade_history.length : ℤ) ≤ 1 →
      get_trades botOneTrade 1 = botOneTrade.trade_history) ∧
    get_performance botOneTrade 1 =
      botOneTrade.performance_history.drop
        (botOneTrade.performance_history.length - (1 : ℤ).toNat) ∧
    (get_performance botOneTrade 1).length =
      min (1 : ℤ).toNat botOneTrade.performance_history.length ∧
    ((botOneTrade.performance_history.length : ℤ) ≤ 1 →
      get_performance botOneTrade 1 = botOneTrade.performance_history) ∧
    get_trades_default botOneTrade = get_trades botOneTrade 50 ∧
    get_performance_default botOneTrade = get_performance botOneTrade 200) :=
  ⟨le_refl 1, c7_tail_amended botOneTrade 1 (le_refl 1)⟩

/-- Folding the append-then-retain step over a batch of samples equals a
single retention of the whole batch: the buffer is always the most recent
`min 1000 len` samples. -/
theorem foldl_perfRetain (rs : List PerfSample) :
    rs.foldl (fun acc r => perfRetain (acc ++ [r])) [] =
      rs.drop (rs.length - 1000) := by
  induction rs using List.reverseRecOn with
  | nil => rfl
  | append_singleton rs r ih =>
    rw [List.foldl_append, ih]
    simp only [List.foldl_cons, List.foldl_nil]
    unfold perfRetain
    simp only [List.length_append, List.length_drop, List.length_singleton]
    by_cases hn : rs.length < 1000
    · rw [if_neg (by omega)]
      have h1 : rs.length - 1000 = 0 := by omega
      have h2 : rs.length + 1 - 1000 = 0 := by omega
      rw [h1, h2, List.drop_zero, List.drop_zero]
    · rw [if_pos (by omega)]
      have e1 : rs.length - (rs.length - 1000) + 1 - 1000 = 1 := by omega
      rw [e1]
      have hle1 : 1 ≤ (rs.drop (rs.length - 1000)).length := by
        rw [List.length_drop]
        omega
      have hle2 : rs.length + 1 - 1000 ≤ rs.length := by omega
      rw [List.drop_append_of_le_length hle1,
        List.drop_append_of_le_length hle2, List.drop_drop]
      have e2 : rs.length - 1000 + 1 = rs.length + 1 - 1000 := by omega
      rw [e2]


/-- C6: appending 1001 performance samples through the retention step leaves
exactly the last 1000 — `tail(1000)` returns exactly 1000 samples and the
oldest pre-1001st-append sample is gone (FIFO eviction) — while the trade
history is only ever appended to, never truncated. -/
theorem c6_history_retention (rs : List PerfSample) (h : rs.length = 1001) :
    pyTail (rs.foldl (fun acc r => perfRetain (acc ++ [r])) []) 1000 =
      rs.drop 1 ∧
    (pyTail (rs.foldl (fun acc r => perfRetain (acc ++ [r])) []) 1000).length =
      1000 ∧
    (∀ r0, rs.head? = some r0 → r0 ∉ rs.drop 1 →
      r0 ∉ pyTail (rs.foldl (fun acc r => perfRetain (acc ++ [r])) []) 1000) ∧
    (∀ (b : MockTradingBot) (t : ℕ),
      (update_state b t).performance_history =
        perfRetain (b.performance_history ++ [perfSampleOf b t])) ∧
    (∀ (b : MockTradingBot) (a t o : ℕ), ∃ l,
      (execute_mock_trade b a t o).trade_history = b.trade_history ++ l) ∧
    (∀ (b : MockTradingBot) (t : ℕ),
      (update_state b t).trade_history = b.trade_history) := by
  have hf : rs.foldl (fun acc r => perfRetain (acc ++ [r])) [] = rs.drop 1 := by
    rw [foldl_perfRetain, h]
  have hlen : (rs.drop 1).length = 1000 := by
    rw [List.length_drop, h]
  have hpt : pyTail (rs.drop 1) 1000 = rs.drop 1 := by
    unfold pyTail
    rw [if_pos (by omega)]
    have h0 : (((rs.drop 1).length : ℤ) - 1000).toNat = 0 := by omega
    rw [h0, List.drop_zero]
  rw [hf, hpt]
  refine ⟨rfl, hlen, ?_, ?_, ?_, ?_⟩
  · intro r0 _ hnot
    exact hnot
  · intro b t
    rfl
  · intro b a t o
    unfold execute_mock_trade
    split
    · dsimp only
      split
      · exact ⟨_, rfl⟩
      · exact ⟨[], (List.append_nil _).symm⟩
    · split
      · exact ⟨_, rfl⟩
      · exact ⟨[], (List.append_nil _).symm⟩
  · intro b t
    rfl

/-- Witness for `c6_history_retention` on 1001 copies of the constructor
state's sample. -/
theorem c6_history_retention_witness :
    ((List.replicate 1001 (perfSampleOf mkBot 0)).length = 1001) ∧
    (pyTail ((List.replicate 1001 (perfSampleOf mkBot 0)).foldl
        (fun acc r => perfRetain (acc ++ [r])) []) 1000 =
      (List.replicate 1001 (perfSampleOf mkBot 0)).drop 1 ∧
    (pyTail ((List.replicate 1001 (perfSampleOf mkBot 0)).foldl
        (fun acc r => perfRetain (acc ++ [r])) []) 1000).length = 1000 ∧
    (∀ r0, (List.replicate 1001 (perfSampleOf mkBot 0)).head? = some r0 →
      r0 ∉ (List.replicate 1001 (perfSampleOf mkBot 0)).drop 1 →
      r0 ∉ pyTail ((List.replicate 1001 (perfSampleOf mkBot 0)).foldl
        (fun acc r => perfRetain (acc ++ [r])) []) 1000) ∧
    (∀ (b : MockTradingBot) (t : ℕ),
      (update_state b t).performance_history =
        perfRetain (b.performance_history ++ [perfSampleOf b t])) ∧
    (∀ (b : MockTradingBot) (a t o : ℕ), ∃ l,
      (execute_mock_trade b a t o).trade_history = b.trade_history ++ l) ∧
    (∀ (b : MockTradingBot) (t : ℕ),
      (update_state b t).trade_history = b.trade_history)) :=
  ⟨by rw [List.length_replicate],
   c6_history_retention (List.replicate 1001 (perfSampleOf mkBot 0))
    (by rw [List.length_replicate])⟩


/-- The position sanity predicate preserved by the engine: non-negative
cash, non-negative holding, positive price. -/
def PosOK (b : MockTradingBot) : Prop :=
  0 ≤ b.cash ∧ 0 ≤ b.shares_held ∧ 0 < b.current_price

/-- The price-positivity side condition on one operation: a tick's gaussian
draw keeps the multiplicative factor `1 + change_percent` positive (the data
model declares `current_price` a positive real). -/
def TickOK : Op → Prop
  | Op.op_tick i => 0 < 1 + i.change_percent
  | _ => True

/-- The trade executor preserves `PosOK`: a BUY spends at most
`0.95 * cash` (the floor only lowers the cost) and a SELL credits cash. -/
theorem execute_posOK (b : MockTradingBot) (a t o : ℕ) (hb : PosOK b) :
    PosOK (execute_mock_trade b a t o) := by
  obtain ⟨hc, hs, hp⟩ := hb
  unfold execute_mock_trade
  split
  · dsimp only
    split
    · rename_i hcond hstb
      have hq : 0 ≤ b.cash * (95/100) / b.current_price :=
        div_nonneg (mul_nonneg hc (by norm_num)) hp.le
      have hpy : pyInt (b.cash * (95/100) / b.current_price) =
          ⌊b.cash * (95/100) / b.current_price⌋ := if_pos hq
      refine ⟨?_, le_of_lt hstb, hp⟩
      show 0 ≤ b.cash -
        (pyInt (b.cash * (95/100) / b.current_price) : ℚ) * b.current_price
      rw [hpy]
      have hle : (⌊b.cash * (95/100) / b.current_price⌋ : ℚ) ≤
          b.cash * (95/100) / b.current_price := Int.floor_le _
      have h2 : (⌊b.cash * (95/100) / b.current_price⌋ : ℚ) * b.current_price ≤
          b.cash * (95/100) / b.current_price * b.current_price :=
        mul_le_mul_of_nonneg_right hle hp.le
      rw [div_mul_cancel₀ _ hp.ne.symm] at h2
      have h3 : b.cash * (95/100) ≤ b.cash :=
        mul_le_of_le_one_right hc (by norm_num)
      linarith
    · exact ⟨hc, hs, hp⟩
  · split
    · rename_i hcond
      refine ⟨?_, le_refl 0, hp⟩
      show 0 ≤ b.cash + (b.shares_held : ℚ) * b.current_price
      have : (0 : ℚ) ≤ (b.shares_held : ℚ) * b.current_price :=
        mul_nonneg (by exact_mod_cast hs) hp.le
      linarith
    · exact ⟨hc, hs, hp⟩

/-- `update_state` does not touch cash, holding or price. -/
theorem posOK_update_state (b : MockTradingBot) (t : ℕ) :
    PosOK (update_state b t) ↔ PosOK b := Iff.rfl

/-- One loop iteration preserves `PosOK` when the price factor stays
positive. -/
theorem tick_posOK (b : MockTradingBot) (i : TickInput)
    (hx : 0 < 1 + i.change_percent) (hb : PosOK b) : PosOK (tick b i) := by
  obtain ⟨hc, hs, hp⟩ := hb
  show PosOK (update_state (execute_mock_trade
    { b with
      bot_state := { b.bot_state with status := "active" }
      current_price := b.current_price * (1 + i.change_percent) }
    (make_trading_decision b.shares_held i.draw) i.t i.oid) i.t)
  rw [posOK_update_state]
  exact execute_posOK _ _ _ _ ⟨hc, hs, mul_pos hp hx⟩

/-- Every engine operation preserves `PosOK` (lifecycle operations do not
touch the position at all). -/
theorem applyOp_posOK (b : MockTradingBot) (op : Op) (hop : TickOK op)
    (hb : PosOK b) : PosOK (applyOp b op) := by
  cases op with
  | op_init c => exact hb
  | op_start =>
    show PosOK (start b).1
    unfold start
    split
    · exact hb
    · split
      · exact hb
      · exact hb
  | op_stop =>
    show PosOK (stop b).1
    unfold stop
    split
    · exact hb
    · exact hb
  | op_tick i => exact tick_posOK b i hop hb

/-- `PosOK` holds along every run whose ticks keep the price factor
positive. -/
theorem run_posOK : ∀ (ops : List Op) (b : MockTradingBot),
    (∀ op ∈ ops, TickOK op) → PosOK b → PosOK (run b ops)
  | [], _, _, hb => hb
  | op :: ops, b, hops, hb =>
    run_posOK ops (applyOp b op)
      (fun o ho => hops o (List.mem_cons_of_mem _ ho))
      (applyOp_posOK b op (hops op (List.mem_cons_self _ _)) hb)

/-- C4: along every run from the constructor state whose price factors stay
positive, `shares_held` and `cash` are never negative; and for every
execution, a change of `shares_held` is either a BUY taking it from 0 to a
positive value or a SELL taking it from a positive value to 0 — SELL never
increases it, BUY never decreases it. -/
theorem c4_position_invariant (ops : List Op)
    (hops : ∀ op ∈ ops, TickOK op) :
    (0 ≤ (run mkBot ops).shares_held ∧ 0 ≤ (run mkBot ops).cash) ∧
    (∀ (b : MockTradingBot) (a t o : ℕ),
      (execute_mock_trade b a t o).shares_held ≠ b.shares_held →
        (b.shares_held = 0 ∧ 0 < (execute_mock_trade b a t o).shares_held ∧
          (execute_mock_trade b a t o).bot_state.last_action = "BUY") ∨
        (0 < b.shares_held ∧ (execute_mock_trade b a t o).shares_held = 0 ∧
          (execute_mock_trade b a t o).bot_state.last_action = "SELL")) := by
  constructor
  · have h := run_posOK ops mkBot hops ⟨by decide, by decide, by decide⟩
    exact ⟨h.2.1, h.1⟩
  · intro b a t o hne
    by_cases h1 : a = 1 ∧ b.shares_held = 0
    · by_cases h2 : 0 < pyInt (b.cash * (95/100) / b.current_price)
      · have he : execute_mock_trade b a t o =
            { b with
              cash := b.cash -
                (pyInt (b.cash * (95/100) / b.current_price) : ℚ) *
                  b.current_price
              shares_held := pyInt (b.cash * (95/100) / b.current_price)
              trade_history := b.trade_history ++
                [{ timestamp := t, action := "BUY",
                   shares := pyInt (b.cash * (95/100) / b.current_price),
                   price := b.current_price, order_id := mkOrderId o,
                   profit := none }]
              bot_state := { b.bot_state with last_action := "BUY" } } := by
          unfold execute_mock_trade
          rw [if_pos h1]
          dsimp only
          rw [if_pos h2]
        rw [he]
        exact Or.inl ⟨h1.2, h2, rfl⟩
      · have he : execute_mock_trade b a t o = b := by
          unfold execute_mock_trade
          rw [if_pos h1]
          dsimp only
          rw [if_neg h2]
        rw [he] at hne
        exact absurd rfl hne
    · by_cases h3 : a = 2 ∧ 0 < b.shares_held
      · have he : execute_mock_trade b a t o =
            { b with
              cash := b.cash + (b.shares_held : ℚ) * b.current_price
              shares_held := 0
              trade_history := b.trade_history ++
                [{ timestamp := t, action := "SELL", shares := b.shares_held,
                   price := b.current_price, order_id := mkOrderId o,
                   profit := some ((b.shares_held : ℚ) * b.current_price -
                     (b.shares_held : ℚ) *
                       (b.bot_state.portfolio_value - b.cash) /
                         ((max b.shares_held 1 : ℤ) : ℚ)) }]
              bot_state := { b.bot_state with last_action := "SELL" } } := by
          unfold execute_mock_trade
          rw [if_neg h1, if_pos h3]
        rw [he]
        exact Or.inr ⟨h3.2, rfl, rfl⟩
      · have he : execute_mock_trade b a t o =
            { b with bot_state :=
                { b.bot_state with last_action := "HOLD" } } := by
          unfold execute_mock_trade
          rw [if_neg h1, if_neg h3]
        rw [he] at hne
        exact absurd rfl hne

/-- Witness for `c4_position_invariant` on a one-tick run with a zero
gaussian draw. -/
theorem c4_position_invariant_witness :
    (∀ op ∈ [Op.op_tick ⟨0, 0, 1234, 0⟩], TickOK op) ∧
    ((0 ≤ (run mkBot [Op.op_tick ⟨0, 0, 1234, 0⟩]).shares_held ∧
      0 ≤ (run mkBot [Op.op_tick ⟨0, 0, 1234, 0⟩]).cash) ∧
    (∀ (b : MockTradingBot) (a t o : ℕ),
      (execute_mock_trade b a t o).shares_held ≠ b.shares_held →
        (b.shares_held = 0 ∧ 0 < (execute_mock_trade b a t o).shares_held ∧
          (execute_mock_trade b a t o).bot_state.last_action = "BUY") ∨
        (0 < b.shares_held ∧ (execute_mock_trade b a t o).shares_held = 0 ∧
          (execute_mock_trade b a t o).bot_state.last_action = "SELL"))) :=
  have hops : ∀ op ∈ [Op.op_tick ⟨0, 0, 1234, 0⟩], TickOK op := by
    intro op hop
    rw [List.mem_singleton] at hop
    subst hop
    show (0 : ℚ) < 1 + 0
    norm_num
  ⟨hops, c4_position_invariant [Op.op_tick ⟨0, 0, 1234, 0⟩] hops⟩

end MockTradingAPI

